import Mathlib

/-!
# Verification of the Datagen tool-execution client

Shallow embedding of `src/datagen_sdk/client.py`: the exception hierarchy,
`DatagenClient.__init__` (credential resolution and base-URL normalisation)
and `DatagenClient.execute_tool` (request building, response classification,
and the retry loop with exponential backoff).

The network is modelled as an oracle `net : Nat → NetResult` giving the
outcome of the i-th HTTP POST; a run records the outcome, the list of
requests actually issued, and the list of sleep durations.  Responses whose
body the client parses are modelled with their already-parsed JSON value
(`resp.json()` is only reached for status < 400 in the source).
-/

namespace Datagen

/-- JSON values, as produced by `resp.json()` in the Python client. -/
inductive Json where
  | null
  | bool (b : Bool)
  | num (n : Int)
  | str (s : String)
  | arr (elems : List Json)
  | obj (fields : List (String × Json))

/-- Python truthiness (`if not x`) restricted to JSON values:
`None`, `False`, `0`, `""`, `[]` and `{}` are falsy. -/
def Json.truthy : Json → Bool
  | .null => false
  | .bool b => b
  | .num n => n != 0
  | .str s => s != ""
  | .arr elems => !elems.isEmpty
  | .obj fields => !fields.isEmpty

def Json.lookupField : List (String × Json) → String → Option Json
  | [], _ => none
  | (k, v) :: fs, key => if k = key then some v else Json.lookupField fs key

/-- The Python exceptions the client can raise or catch.  The four
`datagen*` constructors embed the SDK's exception classes from
`client.py`; `valueError`, `requestException` and `attributeError` embed
the builtin / library exceptions that also occur in `execute_tool`
(`raise ValueError(...)`, a transport failure from `requests.post`, and
`.get` on a non-dict payload respectively). -/
inductive PyExc where
  | valueError (msg : String)
  | requestException (msg : String)
  | attributeError (msg : String)
  | datagenError (msg : String)
  | datagenAuthError (msg : String)
  | datagenToolError (msg : Json)
  | datagenHttpError (msg : String)

/-- `isinstance(e, DatagenError)`: which of the modelled exceptions derive
from the SDK base class `DatagenError`. -/
def PyExc.isDatagenError : PyExc → Bool
  | .datagenError _ => true
  | .datagenAuthError _ => true
  | .datagenToolError _ => true
  | .datagenHttpError _ => true
  | _ => false

/-- The `except (requests.RequestException, DatagenHttpError)` clause of the
retry loop: which exceptions are caught (and hence retry-eligible). -/
def PyExc.isRetryEligible : PyExc → Bool
  | .requestException _ => true
  | .datagenHttpError _ => true
  | _ => false

/-- `dict.get(key, default)`; on a non-dict value Python raises
`AttributeError` (no `.get` method), modelled as the error case. -/
def Json.get (j : Json) (key : String) (dflt : Json) : Except PyExc Json :=
  match j with
  | .obj fields => .ok ((Json.lookupField fields key).getD dflt)
  | _ => .error (.attributeError "get")

mutual

/-- Rendering of a JSON payload into the message string of
`DatagenHttpError(f"Unexpected response: \x7bpayload\x7d")`.  Stands in for
Python's string interpolation of the decoded payload; no verified property
inspects this text. -/
def Json.render : Json → String
  | .null => "None"
  | .bool b => cond b "True" "False"
  | .num n => toString n
  | .str s => s.quote
  | .arr elems => "[" ++ Json.renderList elems ++ "]"
  | .obj fields => "\x7b" ++ Json.renderFields fields ++ "\x7d"

/-- Comma-separated rendering of array elements. -/
def Json.renderList : List Json → String
  | [] => ""
  | [x] => Json.render x
  | x :: xs => Json.render x ++ ", " ++ Json.renderList xs

/-- Comma-separated rendering of object fields. -/
def Json.renderFields : List (String × Json) → String
  | [] => ""
  | [(k, v)] => k.quote ++ ": " ++ Json.render v
  | (k, v) :: fs => k.quote ++ ": " ++ Json.render v ++ ", " ++ Json.renderFields fs

end

/-- An HTTP response as seen through the `requests` API: status code, body
text, and the parsed JSON body (the source only calls `resp.json()` after
the status checks, so bodies of error responses are never parsed). -/
structure HttpResponse where
  status : Nat
  text : String
  body : Json

/-- Outcome of one `requests.post` call: either the transport raises
`requests.RequestException`, or a response arrives. -/
inductive NetResult where
  | transportError (msg : String)
  | response (r : HttpResponse)

/-- The POST request `execute_tool` issues. -/
structure HttpRequest where
  url : String
  body : Json
  apiKeyHeader : String
  contentType : String

/-- Client configuration, the five fields set by `DatagenClient.__init__`.
`retries` is an `Int` because Python places no sign restriction on it. -/
structure ClientConfig where
  api_key : String
  base_url : String
  timeout : Nat
  retries : Int
  backoff_seconds : ℚ

/-- One observed run of `execute_tool`: the result or raised exception, the
requests issued (in order), and the sleeps performed between attempts. -/
structure RunResult where
  outcome : Except PyExc Json
  requests : List HttpRequest
  sleeps : List ℚ

/-- The body of one iteration of the retry loop, from `requests.post` up to
`return tool_payload.get("result")`: status classification, then the two
envelope checks of `client.py` lines 58-72. -/
def attemptOnce (net : NetResult) : Except PyExc Json :=
  match net with
  | .transportError msg => .error (.requestException msg)
  | .response resp =>
    if resp.status = 401 ∨ resp.status = 403 then
      .error (.datagenAuthError ("Auth failed: " ++ resp.text))
    else if 400 ≤ resp.status then
      .error (.datagenHttpError ("HTTP " ++ toString resp.status ++ ": " ++ resp.text))
    else
      match resp.body.get "success" (.bool false) with
      | .error ex => .error ex
      | .ok outerSuccess =>
        if !outerSuccess.truthy then
          .error (.datagenHttpError ("Unexpected response: " ++ resp.body.render))
        else
          match resp.body.get "data" (.obj []) with
          | .error ex => .error ex
          | .ok tool_payload =>
            match tool_payload.get "success" (.bool false) with
            | .error ex => .error ex
            | .ok innerSuccess =>
              if !innerSuccess.truthy then
                match tool_payload.get "error" .null with
                | .error ex => .error ex
                | .ok errField =>
                  .error (.datagenToolError
                    (if errField.truthy then errField else .str "Tool reported failure"))
              else
                tool_payload.get "result" .null

/-- The retry loop of `execute_tool`, iterations `attempt`, `attempt+1`, …
with `left` further iterations allowed after the current one (so the loop
variable of `for attempt in range(retries + 1)` is `attempt` and
`attempt < retries` iff `0 < left`).  A caught retry-eligible exception
sleeps `backoff_seconds * 2 ** attempt` and continues while `0 < left`;
on the last attempt it is re-raised; non-eligible exceptions propagate. -/
def execLoop (net : Nat → NetResult) (backoff : ℚ) (req : HttpRequest) :
    Nat → Nat → RunResult
  | attempt, left =>
    match attemptOnce (net attempt) with
    | .ok v => ⟨.ok v, [req], []⟩
    | .error e =>
      if e.isRetryEligible then
        match left with
        | 0 => ⟨.error e, [req], []⟩
        | left' + 1 =>
          let rest := execLoop net backoff req (attempt + 1) left'
          ⟨rest.outcome, req :: rest.requests, backoff * 2 ^ attempt :: rest.sleeps⟩
      else ⟨.error e, [req], []⟩

/-- `parameters or \x7b\x7d`: `None` and falsy mappings are replaced by the
empty object. -/
def resolveParams : Option Json → Json
  | none => .obj []
  | some p => if p.truthy then p else .obj []

/-- The request built by `execute_tool` before the loop. -/
def mkRequest (cfg : ClientConfig) (tool_alias_name : String)
    (parameters : Option Json) : HttpRequest :=
  { url := cfg.base_url ++ "/api/tools/execute"
    body := .obj [("tool_alias_name", .str tool_alias_name),
                  ("parameters", resolveParams parameters)]
    apiKeyHeader := cfg.api_key
    contentType := "application/json" }

/-- `DatagenClient.execute_tool`.  Empty tool name raises `ValueError`
before any request; otherwise the loop runs `(retries + 1)` iterations
(`range` of a non-positive bound is empty, reaching the defensive
`DatagenError("Unknown error during tool execution")` fallback since no
exception was captured). -/
def execute_tool (cfg : ClientConfig) (tool_alias_name : String)
    (parameters : Option Json) (net : Nat → NetResult) : RunResult :=
  if tool_alias_name = "" then
    ⟨.error (.valueError "tool_alias_name is required"), [], []⟩
  else
    match (cfg.retries + 1).toNat with
    | 0 => ⟨.error (.datagenError "Unknown error during tool execution"), [], []⟩
    | left + 1 => execLoop net cfg.backoff_seconds (mkRequest cfg tool_alias_name parameters) 0 left

/-- `str.rstrip("/")`: removes every trailing `/`. -/
def rstripSlash (s : String) : String :=
  String.mk ((s.data.reverse.dropWhile (fun c => c == '/')).reverse)

/-- `api_key or os.getenv("DATAGEN_API_KEY")` — Python `or` on an optional
string, where the empty string is falsy. -/
def pyOrStr : Option String → Option String → Option String
  | some k, env => if k = "" then env else some k
  | none, env => env

/-- `DatagenClient.__init__`: credential resolution against the process
environment (`envKey` models `os.getenv("DATAGEN_API_KEY")`), fail-fast
authentication check, and base-URL normalisation. -/
def mkClient (api_key : Option String) (envKey : Option String)
    (base_url : String) (timeout : Nat) (retries : Int)
    (backoff_seconds : ℚ) : Except PyExc ClientConfig :=
  match pyOrStr api_key envKey with
  | none => .error (.datagenAuthError "API key missing. Set DATAGEN_API_KEY or pass api_key.")
  | some k =>
    if k = "" then
      .error (.datagenAuthError "API key missing. Set DATAGEN_API_KEY or pass api_key.")
    else
      .ok ⟨k, rstripSlash base_url, timeout, retries, backoff_seconds⟩

/-- `execute_tool` as a state transformer on the client object: the method
body of `execute_tool` contains no assignment to `self`, so the post-state
of the client equals its pre-state. -/
def execute_tool_st (cfg : ClientConfig) (tool_alias_name : String)
    (parameters : Option Json) (net : Nat → NetResult) :
    RunResult × ClientConfig :=
  (execute_tool cfg tool_alias_name parameters net, cfg)

/-- A standard successful double-envelope body carrying result `R`. -/
def okBody (R : Json) : Json :=
  .obj [("success", .bool true),
        ("data", .obj [("success", .bool true), ("result", R)])]

/-- A body whose outer envelope succeeds but whose inner envelope reports
failure with error message `X`. -/
def toolFailBody (X : String) : Json :=
  .obj [("success", .bool true),
        ("data", .obj [("success", .bool false), ("error", .str X)])]

/-- Whether a string's final character is the path separator `/`. -/
def endsSlash (s : String) : Bool :=
  match s.data.reverse with
  | [] => false
  | c :: _ => c == '/'

/-- The spec's words for the base-URL normalisation claim: strip exactly
one trailing separator (an input ending in `/` loses exactly that one
character; anything else is unchanged).  Stated for comparison with
`rstripSlash`, the embedding of the source's `base_url.rstrip("/")`. -/
def stripOneSlash (s : String) : String :=
  match s.data.reverse with
  | '/' :: t => String.mk t.reverse
  | _ => s

/-- Whether a JSON value is an object (a Python `dict`). -/
def Json.isObj : Json → Bool
  | .obj _ => true
  | _ => false

/-- Total version of `dict.get(key, default)`, defined on every JSON value;
agrees with `Json.get` on objects. -/
def Json.pyGet (j : Json) (key : String) (dflt : Json) : Json :=
  match j with
  | .obj fields => (Json.lookupField fields key).getD dflt
  | _ => dflt

/-- A response payload on which `execute_tool` performs no `.get` on a
non-dict: the payload is an object and its `data` field (defaulting to the
empty object) is an object. -/
def envelopeShaped (j : Json) : Bool :=
  j.isObj && (j.pyGet "data" (.obj [])).isObj

/-! ## Unfolding lemmas for the retry loop -/

theorem execLoop_eq (net : Nat → NetResult) (b : ℚ) (req : HttpRequest)
    (a left : Nat) :
    execLoop net b req a left =
      match attemptOnce (net a) with
      | .ok v => ⟨.ok v, [req], []⟩
      | .error e =>
        if e.isRetryEligible then
          match left with
          | 0 => ⟨.error e, [req], []⟩
          | left' + 1 =>
            let rest := execLoop net b req (a + 1) left'
            ⟨rest.outcome, req :: rest.requests, b * 2 ^ a :: rest.sleeps⟩
        else ⟨.error e, [req], []⟩ := by
  rw [execLoop]

theorem execLoop_of_ok {net : Nat → NetResult} {a : Nat} {v : Json}
    (b : ℚ) (req : HttpRequest) (left : Nat)
    (h : attemptOnce (net a) = .ok v) :
    execLoop net b req a left = ⟨.ok v, [req], []⟩ := by
  rw [execLoop_eq, h]

theorem execLoop_of_fatal {net : Nat → NetResult} {a : Nat} {e : PyExc}
    (b : ℚ) (req : HttpRequest) (left : Nat)
    (h : attemptOnce (net a) = .error e) (hne : e.isRetryEligible = false) :
    execLoop net b req a left = ⟨.error e, [req], []⟩ := by
  rw [execLoop_eq, h]
  simp [hne]

theorem execLoop_of_last {net : Nat → NetResult} {a : Nat} {e : PyExc}
    (b : ℚ) (req : HttpRequest)
    (h : attemptOnce (net a) = .error e) :
    execLoop net b req a 0 = ⟨.error e, [req], []⟩ := by
  rw [execLoop_eq, h]
  by_cases hr : e.isRetryEligible <;> simp [hr]

theorem execLoop_of_retry {net : Nat → NetResult} {a : Nat} {e : PyExc}
    (b : ℚ) (req : HttpRequest) (left : Nat)
    (h : attemptOnce (net a) = .error e) (hr : e.isRetryEligible = true) :
    execLoop net b req a (left + 1) =
      ⟨(execLoop net b req (a + 1) left).outcome,
       req :: (execLoop net b req (a + 1) left).requests,
       b * 2 ^ a :: (execLoop net b req (a + 1) left).sleeps⟩ := by
  rw [execLoop_eq, h]
  simp [hr]

/-! ## Scenario lemmas for the retry loop -/

theorem slide_range_map (b : ℚ) (a n : Nat) :
    b * 2 ^ a :: (List.range n).map (fun i => b * 2 ^ (a + 1 + i)) =
    (List.range (n + 1)).map (fun i => b * 2 ^ (a + i)) := by
  rw [List.range_succ_eq_map, List.map_cons, List.map_map]
  refine congrArg₂ _ (by rw [Nat.add_zero]) ?_
  apply List.map_congr_left
  intro i _
  have h : a + 1 + i = a + (i + 1) := by omega
  simp [Function.comp, h]

theorem execLoop_all_err (net : Nat → NetResult) (b : ℚ) (req : HttpRequest)
    (e : Nat → PyExc)
    (hf : ∀ i, attemptOnce (net i) = .error (e i))
    (hr : ∀ i, (e i).isRetryEligible = true) :
    ∀ left a, execLoop net b req a left =
      ⟨.error (e (a + left)), List.replicate (left + 1) req,
       (List.range left).map (fun i => b * 2 ^ (a + i))⟩ := by
  intro left
  induction left with
  | zero =>
    intro a
    rw [execLoop_of_last b req (hf a)]
    simp
  | succ n ih =>
    intro a
    rw [execLoop_of_retry b req n (hf a) (hr a), ih (a + 1)]
    have h1 : a + 1 + n = a + (n + 1) := by omega
    rw [h1, ← slide_range_map b a n, List.replicate_succ req (n + 1)]

theorem execLoop_err_then_ok (net : Nat → NetResult) (b : ℚ) (req : HttpRequest)
    (k : Nat) (R : Json) (e : Nat → PyExc)
    (hf : ∀ i, i < k → attemptOnce (net i) = .error (e i))
    (hr : ∀ i, i < k → (e i).isRetryEligible = true)
    (hs : attemptOnce (net k) = .ok R) :
    ∀ left a, a ≤ k → k ≤ a + left →
      execLoop net b req a left =
        ⟨.ok R, List.replicate (k - a + 1) req,
         (List.range (k - a)).map (fun i => b * 2 ^ (a + i))⟩ := by
  intro left
  induction left with
  | zero =>
    intro a hak hka
    have hak' : a = k := by omega
    subst hak'
    rw [execLoop_of_ok b req 0 hs]
    simp
  | succ n ih =>
    intro a hak hka
    rcases Nat.eq_or_lt_of_le hak with heq | hlt
    · subst heq
      rw [execLoop_of_ok b req (n + 1) hs]
      simp
    · rw [execLoop_of_retry b req n (hf a hlt) (hr a hlt),
        ih (a + 1) hlt (by omega)]
      have h2 : k - a = (k - (a + 1)) + 1 := by omega
      rw [h2, ← slide_range_map b a (k - (a + 1)),
        List.replicate_succ req (k - (a + 1) + 1)]

theorem execLoop_shape (net : Nat → NetResult) (b : ℚ) (req : HttpRequest) :
    ∀ left a, ∃ n, n ≤ left ∧
      (execLoop net b req a left).requests = List.replicate (n + 1) req ∧
      (execLoop net b req a left).sleeps =
        (List.range n).map (fun i => b * 2 ^ (a + i)) := by
  intro left
  induction left with
  | zero =>
    intro a
    refine ⟨0, le_refl 0, ?_⟩
    rcases h : attemptOnce (net a) with e | v
    · rw [execLoop_of_last b req h]
      exact ⟨rfl, rfl⟩
    · rw [execLoop_of_ok b req 0 h]
      exact ⟨rfl, rfl⟩
  | succ n ih =>
    intro a
    rcases h : attemptOnce (net a) with e | v
    · by_cases hr : e.isRetryEligible
      · rw [execLoop_of_retry b req n h hr]
        obtain ⟨m, hm, hreq, hsl⟩ := ih (a + 1)
        refine ⟨m + 1, by omega, ?_, ?_⟩
        · dsimp only
          rw [hreq]
          exact (List.replicate_succ req (m + 1)).symm
        · dsimp only
          rw [hsl]
          exact slide_range_map b a m
      · rw [execLoop_of_fatal b req (n + 1) h (by simpa using hr)]
        exact ⟨0, by omega, rfl, rfl⟩
    · rw [execLoop_of_ok b req (n + 1) h]
      exact ⟨0, by omega, rfl, rfl⟩

theorem execLoop_error_from_attempt (net : Nat → NetResult) (b : ℚ)
    (req : HttpRequest) :
    ∀ left a e, (execLoop net b req a left).outcome = .error e →
      ∃ i, attemptOnce (net i) = .error e := by
  intro left
  induction left with
  | zero =>
    intro a e h
    rcases ha : attemptOnce (net a) with e' | v
    · rw [execLoop_of_last b req ha] at h
      dsimp only at h
      injection h with h'
      subst h'
      exact ⟨a, ha⟩
    · rw [execLoop_of_ok b req 0 ha] at h
      dsimp only at h
      cases h
  | succ n ih =>
    intro a e h
    rcases ha : attemptOnce (net a) with e' | v
    · by_cases hr : e'.isRetryEligible
      · rw [execLoop_of_retry b req n ha hr] at h
        dsimp only at h
        exact ih (a + 1) e h
      · rw [execLoop_of_fatal b req (n + 1) ha (by simpa using hr)] at h
        dsimp only at h
        injection h with h'
        subst h'
        exact ⟨a, ha⟩
    · rw [execLoop_of_ok b req (n + 1) ha] at h
      dsimp only at h
      cases h

/-! ## Classification of the exceptions one attempt can produce -/

theorem Json.get_cases (j : Json) (key : String) (dflt : Json) :
    (∃ v, j.get key dflt = .ok v) ∨ j.get key dflt = .error (.attributeError "get") := by
  cases j <;> simp [Json.get]

/-- Any exception escaping one loop iteration is an Auth, Http, Tool,
transport (`RequestException`) or `AttributeError` exception — never the
base `DatagenError` and never a `ValueError`. -/
theorem attemptOnce_error_classes (net : NetResult) (e : PyExc)
    (h : attemptOnce net = .error e) :
    (∃ m, e = .requestException m) ∨ (∃ m, e = .datagenAuthError m) ∨
    (∃ m, e = .datagenHttpError m) ∨ (∃ j, e = .datagenToolError j) ∨
    (∃ m, e = .attributeError m) := by
  cases net with
  | transportError msg =>
    simp only [attemptOnce] at h
    injection h with h'
    exact Or.inl ⟨msg, h'.symm⟩
  | response resp =>
    simp only [attemptOnce] at h
    split_ifs at h with h1 h2
    · injection h with h'
      exact Or.inr (Or.inl ⟨_, h'.symm⟩)
    · injection h with h'
      exact Or.inr (Or.inr (Or.inl ⟨_, h'.symm⟩))
    · rcases Json.get_cases resp.body "success" (.bool false) with ⟨v, hv⟩ | hv <;>
        rw [hv] at h <;> (try dsimp only at h)
      · split_ifs at h with ht
        · injection h with h'
          exact Or.inr (Or.inr (Or.inl ⟨_, h'.symm⟩))
        · rcases Json.get_cases resp.body "data" (.obj []) with ⟨tp, htp⟩ | htp <;>
            rw [htp] at h <;> (try dsimp only at h)
          · rcases Json.get_cases tp "success" (.bool false) with ⟨iv, hiv⟩ | hiv <;>
              rw [hiv] at h <;> (try dsimp only at h)
            · split_ifs at h with hit
              · rcases Json.get_cases tp "error" .null with ⟨ev, hev⟩ | hev <;>
                  rw [hev] at h <;> (try dsimp only at h)
                · injection h with h'
                  exact Or.inr (Or.inr (Or.inr (Or.inl ⟨_, h'.symm⟩)))
                · injection h with h'
                  exact Or.inr (Or.inr (Or.inr (Or.inr ⟨_, h'.symm⟩)))
              · rcases Json.get_cases tp "result" .null with ⟨rv, hrv⟩ | hrv <;>
                  rw [hrv] at h
                · cases h
                · injection h with h'
                  exact Or.inr (Or.inr (Or.inr (Or.inr ⟨_, h'.symm⟩)))
            · injection h with h'
              exact Or.inr (Or.inr (Or.inr (Or.inr ⟨_, h'.symm⟩)))
          · injection h with h'
            exact Or.inr (Or.inr (Or.inr (Or.inr ⟨_, h'.symm⟩)))
      · injection h with h'
        exact Or.inr (Or.inr (Or.inr (Or.inr ⟨_, h'.symm⟩)))

/-! ## Unpacking `execute_tool` and single-attempt evaluation lemmas -/

theorem execute_tool_eq_loop (cfg : ClientConfig) (tool : String)
    (params : Option Json) (net : Nat → NetResult)
    (htool : tool ≠ "") (hN : 0 ≤ cfg.retries) :
    execute_tool cfg tool params net =
      execLoop net cfg.backoff_seconds (mkRequest cfg tool params) 0
        cfg.retries.toNat := by
  unfold execute_tool
  rw [if_neg htool]
  have h1 : (cfg.retries + 1).toNat = cfg.retries.toNat + 1 := by omega
  rw [h1]

theorem attemptOnce_ok (tx : String) (R : Json) :
    attemptOnce (.response ⟨200, tx, okBody R⟩) = .ok R := rfl

theorem attemptOnce_500 (tx : String) (bd : Json) :
    attemptOnce (.response ⟨500, tx, bd⟩) =
      .error (.datagenHttpError ("HTTP 500: " ++ tx)) := by
  unfold attemptOnce
  norm_num
  rfl

theorem attemptOnce_auth {s : Nat} (hs : s = 401 ∨ s = 403) (tx : String)
    (bd : Json) :
    attemptOnce (.response ⟨s, tx, bd⟩) =
      .error (.datagenAuthError ("Auth failed: " ++ tx)) := by
  rcases hs with rfl | rfl <;> rfl

theorem attemptOnce_toolFail {X : String} (hX : X ≠ "") (tx : String) :
    attemptOnce (.response ⟨200, tx, toolFailBody X⟩) =
      .error (.datagenToolError (.str X)) := by
  simp [attemptOnce, toolFailBody, Json.get, Json.lookupField, Json.truthy, hX]

/-! ## Behaviour of `rstrip("/")` -/

theorem rstripSlash_no_slash (s : String) (h : endsSlash s = false) :
    rstripSlash s = s := by
  unfold endsSlash at h
  apply String.ext
  show (s.data.reverse.dropWhile (fun c => c == '/')).reverse = s.data
  rcases hr : s.data.reverse with _ | ⟨c, t⟩ <;> rw [hr] at h
  · rw [List.dropWhile_nil]
    have : s.data = [] := by
      have := congrArg List.reverse hr
      simpa using this
    simp [this]
  · dsimp at h
    rw [List.dropWhile_cons, h]
    simp only [Bool.false_eq_true, if_false]
    have := congrArg List.reverse hr
    simpa using this.symm

theorem rstripSlash_single (s : String) (h1 : endsSlash s = true)
    (h2 : endsSlash (String.mk s.data.dropLast) = false) :
    rstripSlash s = String.mk s.data.dropLast := by
  unfold endsSlash at h1 h2
  rcases hr : s.data.reverse with _ | ⟨c, t⟩ <;> rw [hr] at h1
  · cases h1
  · dsimp at h1
    have hc : c = '/' := by simpa using h1
    subst hc
    have hdata : s.data = t.reverse ++ ['/'] := by
      have := congrArg List.reverse hr
      simpa using this
    have hdrop : s.data.dropLast = t.reverse := by
      rw [hdata, List.dropLast_concat]
    rw [hdrop] at h2 ⊢
    apply String.ext
    show (s.data.reverse.dropWhile (fun c => c == '/')).reverse = t.reverse
    rw [hr, List.dropWhile_cons]
    simp only [beq_self_eq_true, if_true]
    have ht : t.reverse.reverse = t := List.reverse_reverse t
    rcases htc : t with _ | ⟨d, t'⟩
    · simp
    · have h2' : (d == '/') = false := by
        rw [htc] at h2
        simpa [List.reverse_reverse] using h2
      rw [List.dropWhile_cons, h2']
      simp

theorem rstripSlash_strips_all (s : String) :
    ∃ k, s.data = (rstripSlash s).data ++ List.replicate k '/' := by
  refine ⟨(s.data.reverse.takeWhile (fun c => c == '/')).length, ?_⟩
  show s.data = (s.data.reverse.dropWhile (fun c => c == '/')).reverse ++ _
  have hsplit := List.takeWhile_append_dropWhile (fun c => c == '/') s.data.reverse
  have htake : s.data.reverse.takeWhile (fun c => c == '/') =
      List.replicate (s.data.reverse.takeWhile (fun c => c == '/')).length '/' := by
    apply List.eq_replicate_of_mem
    intro b hb
    have := List.mem_takeWhile_imp hb
    simpa using this
  calc s.data = s.data.reverse.reverse := (List.reverse_reverse _).symm
    _ = (s.data.reverse.takeWhile (fun c => c == '/') ++
          s.data.reverse.dropWhile (fun c => c == '/')).reverse := by rw [hsplit]
    _ = (s.data.reverse.dropWhile (fun c => c == '/')).reverse ++
          (s.data.reverse.takeWhile (fun c => c == '/')).reverse := by
        rw [List.reverse_append]
    _ = _ := by
        rw [htake, List.reverse_replicate, List.length_replicate]

theorem endsSlash_rstripSlash (s : String) :
    endsSlash (rstripSlash s) = false := by
  unfold endsSlash rstripSlash
  simp only [List.reverse_reverse]
  rcases hd : s.data.reverse.dropWhile (fun c => c == '/') with _ | ⟨c, t⟩
  · rfl
  · have := List.head?_dropWhile_not (fun c => c == '/') s.data.reverse
    rw [hd] at this
    simpa using this

/-! ## SDK-typed errors on well-shaped payloads -/

theorem Json.get_of_isObj {j : Json} (h : j.isObj = true)
    (key : String) (dflt : Json) :
    j.get key dflt = .ok (j.pyGet key dflt) := by
  cases j <;> first | rfl | simp [Json.isObj] at h

/-- If a response arrives (no transport failure) and its payload is
envelope-shaped, any exception from that iteration is one of the SDK's
`DatagenError` subclasses. -/
theorem attemptOnce_sdk_error_of_shaped (r : HttpResponse)
    (hb : envelopeShaped r.body = true) (e : PyExc)
    (h : attemptOnce (.response r) = .error e) :
    e.isDatagenError = true := by
  obtain ⟨hObj, hData⟩ :
      r.body.isObj = true ∧ (r.body.pyGet "data" (.obj [])).isObj = true := by
    simpa [envelopeShaped] using hb
  simp only [attemptOnce] at h
  split_ifs at h with h1 h2
  · injection h with h'
    rw [← h']
    rfl
  · injection h with h'
    rw [← h']
    rfl
  · rw [Json.get_of_isObj hObj "success" (.bool false),
      Json.get_of_isObj hObj "data" (.obj [])] at h
    dsimp only at h
    split_ifs at h with ht
    · injection h with h'
      rw [← h']
      rfl
    · rw [Json.get_of_isObj hData "success" (.bool false)] at h
      dsimp only at h
      split_ifs at h with hit
      · rw [Json.get_of_isObj hData "error" .null] at h
        dsimp only at h
        injection h with h'
        rw [← h']
        rfl
      · rw [Json.get_of_isObj hData "result" .null] at h
        cases h

/-! ## Claim theorems -/

/-- Claim C7: for every parameters mapping and every backend, calling
`execute_tool` with an empty tool identifier raises the Invalid-Argument
error (`ValueError`) locally and issues zero network requests. -/
theorem claim_empty_identifier_local_error (cfg : ClientConfig)
    (params : Option Json) (net : Nat → NetResult) :
    (execute_tool cfg "" params net).outcome =
      .error (.valueError "tool_alias_name is required") ∧
    (execute_tool cfg "" params net).requests = [] :=
  ⟨rfl, rfl⟩

/-- Claim C4: when the backend responds HTTP 200 with body
`\x7b"success":true,"data":\x7b"success":true,"result":R\x7d\x7d`,
`execute_tool` returns exactly `R`, for every JSON value `R`. -/
theorem claim_returns_inner_result (cfg : ClientConfig) (tool : String)
    (params : Option Json) (net : Nat → NetResult) (R : Json) (tx : String)
    (htool : tool ≠ "") (hN : 0 ≤ cfg.retries)
    (h0 : net 0 = .response ⟨200, tx, okBody R⟩) :
    (execute_tool cfg tool params net).outcome = .ok R := by
  rw [execute_tool_eq_loop cfg tool params net htool hN]
  have h : attemptOnce (net 0) = .ok R := by
    rw [h0]
    exact attemptOnce_ok tx R
  rw [execLoop_of_ok cfg.backoff_seconds (mkRequest cfg tool params)
    cfg.retries.toNat h]

/-- Witness for C4 at `R = "v"`, one successful attempt. -/
theorem claim_returns_inner_result_witness :
    (execute_tool ⟨"k", "u", 30, 0, 1⟩ "t" none
        (fun _ => .response ⟨200, "", okBody (.str "v")⟩)).outcome =
      .ok (.str "v") :=
  claim_returns_inner_result ⟨"k", "u", 30, 0, 1⟩ "t" none
    (fun _ => .response ⟨200, "", okBody (.str "v")⟩) (.str "v") ""
    (by decide) (by decide) rfl

/-- Claim C8: with a non-negative retry count, the defensive final branch
raising the generic `DatagenError("Unknown error during tool execution")`
is unreachable: no run's outcome is a base `DatagenError`. -/
theorem claim_fallback_unreachable (cfg : ClientConfig) (tool : String)
    (params : Option Json) (net : Nat → NetResult) (hN : 0 ≤ cfg.retries) :
    ∀ m, (execute_tool cfg tool params net).outcome ≠ .error (.datagenError m) := by
  intro m h
  by_cases htool : tool = ""
  · subst htool
    simp [execute_tool] at h
  · rw [execute_tool_eq_loop cfg tool params net htool hN] at h
    obtain ⟨i, hi⟩ := execLoop_error_from_attempt net cfg.backoff_seconds
      (mkRequest cfg tool params) cfg.retries.toNat 0 _ h
    rcases attemptOnce_error_classes (net i) _ hi with
      ⟨m', hm⟩ | ⟨m', hm⟩ | ⟨m', hm⟩ | ⟨m', hm⟩ | ⟨m', hm⟩ <;> simp at hm

/-- Witness for C8: generic error never raised with retries 0 over a
transport-failing backend. -/
theorem claim_fallback_unreachable_witness :
    (execute_tool ⟨"k", "u", 30, 0, 1⟩ "t" none
        (fun _ => .transportError "boom")).outcome ≠
      .error (.datagenError "x") :=
  claim_fallback_unreachable ⟨"k", "u", 30, 0, 1⟩ "t" none
    (fun _ => .transportError "boom") (by decide) "x"

/-- Claim C9: `execute_tool` leaves the client configuration unchanged
(the post-state of the client equals its pre-state), and repeating the
call against an idempotent (constant-response) backend yields the same
outcome. -/
theorem claim_config_frame (cfg : ClientConfig) (tool : String)
    (params : Option Json) (net : Nat → NetResult) :
    (execute_tool_st cfg tool params net).2 = cfg ∧
    (∀ r : NetResult, (∀ i, net i = r) →
      (execute_tool cfg tool params
        (fun i => net (i + (execute_tool cfg tool params net).requests.length))).outcome =
      (execute_tool cfg tool params net).outcome) := by
  refine ⟨rfl, ?_⟩
  intro r h
  have hfun : (fun i => net (i + (execute_tool cfg tool params net).requests.length)) = net := by
    funext i
    rw [h, h]
  rw [hfun]

/-- Witness for C9 over a constant backend. -/
theorem claim_config_frame_witness :
    (execute_tool_st ⟨"k", "u", 30, 2, 1⟩ "t" none
        (fun _ => .transportError "x")).2 = ⟨"k", "u", 30, 2, 1⟩ ∧
    (execute_tool ⟨"k", "u", 30, 2, 1⟩ "t" none
        (fun i => (fun _ => NetResult.transportError "x")
          (i + (execute_tool ⟨"k", "u", 30, 2, 1⟩ "t" none
            (fun _ => .transportError "x")).requests.length))).outcome =
      (execute_tool ⟨"k", "u", 30, 2, 1⟩ "t" none
        (fun _ => .transportError "x")).outcome :=
  ⟨(claim_config_frame ⟨"k", "u", 30, 2, 1⟩ "t" none
      (fun _ => .transportError "x")).1,
   (claim_config_frame ⟨"k", "u", 30, 2, 1⟩ "t" none
      (fun _ => .transportError "x")).2 (.transportError "x") (fun _ => rfl)⟩

/-- Claim C10: an explicitly supplied empty-string credential is not
treated as provided: construction behaves exactly as with no credential,
using the environment variable when it holds a non-empty value and raising
the Authentication error otherwise. -/
theorem claim_empty_api_key_env_fallback (env : Option String) (url : String)
    (t : Nat) (r : Int) (b : ℚ) :
    mkClient (some "") env url t r b = mkClient none env url t r b ∧
    (∀ v, env = some v → v ≠ "" →
      mkClient (some "") env url t r b = .ok ⟨v, rstripSlash url, t, r, b⟩) ∧
    ((env = none ∨ env = some "") →
      mkClient (some "") env url t r b =
        .error (.datagenAuthError
          "API key missing. Set DATAGEN_API_KEY or pass api_key.")) := by
  refine ⟨rfl, ?_, ?_⟩
  · intro v hv hne
    subst hv
    simp [mkClient, pyOrStr, hne]
  · rintro (rfl | rfl) <;> rfl

/-- Witness for C10 with the environment set to a non-empty value and to
nothing. -/
theorem claim_empty_api_key_env_fallback_witness :
    mkClient (some "") (some "env_key") "u" 30 0 1 =
      .ok ⟨"env_key", rstripSlash "u", 30, 0, 1⟩ ∧
    mkClient (some "") none "u" 30 0 1 =
      .error (.datagenAuthError
        "API key missing. Set DATAGEN_API_KEY or pass api_key.") :=
  ⟨(claim_empty_api_key_env_fallback (some "env_key") "u" 30 0 1).2.1
      "env_key" rfl (by decide),
   (claim_empty_api_key_env_fallback none "u" 30 0 1).2.2 (Or.inl rfl)⟩

/-- Claim C1: with `retries = N`, if the backend returns HTTP 500 on every
attempt then exactly `N+1` requests are made and an Http error carrying
status 500 is raised; if it returns HTTP 500 on the first `k ≤ N` attempts
and a double-success envelope thereafter, the inner result is returned
after `k` failed requests plus one successful request. -/
theorem claim_http500_retry_contract (key url tool : String) (t : Nat)
    (N : Nat) (b : ℚ) (params : Option Json) (txt : Nat → String)
    (bdy : Nat → Json) (net : Nat → NetResult) (htool : tool ≠ "") :
    ((∀ i, net i = .response ⟨500, txt i, bdy i⟩) →
      (execute_tool ⟨key, url, t, (N : Int), b⟩ tool params net).outcome =
        .error (.datagenHttpError ("HTTP 500: " ++ txt N)) ∧
      (execute_tool ⟨key, url, t, (N : Int), b⟩ tool params net).requests.length
        = N + 1) ∧
    (∀ k R tx2, k ≤ N →
      (∀ i, i < k → net i = .response ⟨500, txt i, bdy i⟩) →
      net k = .response ⟨200, tx2, okBody R⟩ →
      (execute_tool ⟨key, url, t, (N : Int), b⟩ tool params net).outcome = .ok R ∧
      (execute_tool ⟨key, url, t, (N : Int), b⟩ tool params net).requests.length
        = k + 1) := by
  have hN : (0 : Int) ≤ ((N : Nat) : Int) := Int.natCast_nonneg N
  have htoNat : (((N : Nat) : Int)).toNat = N := by omega
  constructor
  · intro hall
    rw [execute_tool_eq_loop _ tool params net htool hN]
    show (execLoop net b _ 0 (((N : Nat) : Int)).toNat).outcome = _ ∧
      (execLoop net b _ 0 (((N : Nat) : Int)).toNat).requests.length = _
    rw [htoNat,
      execLoop_all_err net b _ (fun i => .datagenHttpError ("HTTP 500: " ++ txt i))
        (fun i => by rw [hall i]; exact attemptOnce_500 (txt i) (bdy i))
        (fun i => rfl) N 0]
    constructor
    · show Except.error _ = Except.error _
      rw [Nat.zero_add]
    · show (List.replicate (N + 1) _).length = N + 1
      rw [List.length_replicate]
  · intro k R tx2 hkN hfail hsucc
    rw [execute_tool_eq_loop _ tool params net htool hN]
    show (execLoop net b _ 0 (((N : Nat) : Int)).toNat).outcome = _ ∧
      (execLoop net b _ 0 (((N : Nat) : Int)).toNat).requests.length = _
    rw [htoNat,
      execLoop_err_then_ok net b _ k R
        (fun i => .datagenHttpError ("HTTP 500: " ++ txt i))
        (fun i hik => by rw [hfail i hik]; exact attemptOnce_500 (txt i) (bdy i))
        (fun i _ => rfl)
        (by rw [hsucc]; exact attemptOnce_ok tx2 R)
        N 0 (Nat.zero_le k) (by omega)]
    exact ⟨rfl, by rw [List.length_replicate]; omega⟩

/-- Witness for C1: the all-failures part at `N = 2`, a backend that
always answers HTTP 500. -/
theorem claim_http500_retry_contract_witness :
    (execute_tool ⟨"k", "u", 30, ((2 : Nat) : Int), 1⟩ "t" none
        (fun _ => .response ⟨500, "ISE", .null⟩)).outcome =
      .error (.datagenHttpError ("HTTP 500: " ++ "ISE")) ∧
    (execute_tool ⟨"k", "u", 30, ((2 : Nat) : Int), 1⟩ "t" none
        (fun _ => .response ⟨500, "ISE", .null⟩)).requests.length = 2 + 1 :=
  (claim_http500_retry_contract "k" "u" "t" 30 2 1 none (fun _ => "ISE")
      (fun _ => .null) (fun _ => .response ⟨500, "ISE", .null⟩)
      (by decide)).1 (fun _ => rfl)

/-- Claim C2: for every configured retry count, an HTTP 401 or 403 response
raises the Authentication error after exactly one request, and an inner
envelope failure with message `X` raises a Tool error carrying `X` after
exactly one request; neither is retried. -/
theorem claim_auth_and_tool_errors_single_call (cfg : ClientConfig)
    (tool : String) (params : Option Json)
    (htool : tool ≠ "") (hN : 0 ≤ cfg.retries) :
    (∀ (s : Nat) (tx : String) (bd : Json) (net : Nat → NetResult),
      (s = 401 ∨ s = 403) → net 0 = .response ⟨s, tx, bd⟩ →
      (execute_tool cfg tool params net).outcome =
        .error (.datagenAuthError ("Auth failed: " ++ tx)) ∧
      (execute_tool cfg tool params net).requests.length = 1) ∧
    (∀ (X tx : String) (net : Nat → NetResult), X ≠ "" →
      net 0 = .response ⟨200, tx, toolFailBody X⟩ →
      (execute_tool cfg tool params net).outcome =
        .error (.datagenToolError (.str X)) ∧
      (execute_tool cfg tool params net).requests.length = 1) := by
  constructor
  · intro s tx bd net hs h0
    rw [execute_tool_eq_loop cfg tool params net htool hN]
    have h : attemptOnce (net 0) =
        .error (.datagenAuthError ("Auth failed: " ++ tx)) := by
      rw [h0]
      exact attemptOnce_auth hs tx bd
    rw [execLoop_of_fatal cfg.backoff_seconds (mkRequest cfg tool params)
      cfg.retries.toNat h rfl]
    exact ⟨rfl, rfl⟩
  · intro X tx net hX h0
    rw [execute_tool_eq_loop cfg tool params net htool hN]
    have h : attemptOnce (net 0) = .error (.datagenToolError (.str X)) := by
      rw [h0]
      exact attemptOnce_toolFail hX tx
    rw [execLoop_of_fatal cfg.backoff_seconds (mkRequest cfg tool params)
      cfg.retries.toNat h rfl]
    exact ⟨rfl, rfl⟩

/-- Witness for C2: HTTP 401 and an inner failure with message "X", both
with retries configured to 3. -/
theorem claim_auth_and_tool_errors_single_call_witness :
    ((execute_tool ⟨"k", "u", 30, 3, 1⟩ "t" none
        (fun _ => .response ⟨401, "Unauthorized", .null⟩)).outcome =
      .error (.datagenAuthError ("Auth failed: " ++ "Unauthorized")) ∧
     (execute_tool ⟨"k", "u", 30, 3, 1⟩ "t" none
        (fun _ => .response ⟨401, "Unauthorized", .null⟩)).requests.length = 1) ∧
    ((execute_tool ⟨"k", "u", 30, 3, 1⟩ "t" none
        (fun _ => .response ⟨200, "", toolFailBody "X"⟩)).outcome =
      .error (.datagenToolError (.str "X")) ∧
     (execute_tool ⟨"k", "u", 30, 3, 1⟩ "t" none
        (fun _ => .response ⟨200, "", toolFailBody "X"⟩)).requests.length = 1) :=
  ⟨(claim_auth_and_tool_errors_single_call ⟨"k", "u", 30, 3, 1⟩ "t" none
      (by decide) (by decide)).1 401 "Unauthorized" .null
      (fun _ => .response ⟨401, "Unauthorized", .null⟩) (Or.inl rfl) rfl,
   (claim_auth_and_tool_errors_single_call ⟨"k", "u", 30, 3, 1⟩ "t" none
      (by decide) (by decide)).2 "X" ""
      (fun _ => .response ⟨200, "", toolFailBody "X"⟩) (by decide) rfl⟩

/-- Claim C5: in every run the sleeps between attempts are exactly
`backoff_seconds * 2 ^ i` for `i = 0, 1, …` (no jitter, no cap), one fewer
sleep than requests (none after the final attempt); on a backend failing
with HTTP 500 on every attempt the full schedule
`backoff * 2^0, …, backoff * 2^(retries-1)` is slept. -/
theorem claim_exponential_backoff_schedule (cfg : ClientConfig)
    (tool : String) (params : Option Json) (net : Nat → NetResult)
    (htool : tool ≠ "") (hN : 0 ≤ cfg.retries) :
    (∃ n, n ≤ cfg.retries.toNat ∧
      (execute_tool cfg tool params net).requests.length = n + 1 ∧
      (execute_tool cfg tool params net).sleeps =
        (List.range n).map (fun i => cfg.backoff_seconds * 2 ^ i)) ∧
    (∀ (txt : Nat → String) (bdy : Nat → Json),
      (∀ i, net i = .response ⟨500, txt i, bdy i⟩) →
      (execute_tool cfg tool params net).sleeps =
        (List.range cfg.retries.toNat).map
          (fun i => cfg.backoff_seconds * 2 ^ i)) := by
  constructor
  · rw [execute_tool_eq_loop cfg tool params net htool hN]
    obtain ⟨n, hn, hreq, hsl⟩ := execLoop_shape net cfg.backoff_seconds
      (mkRequest cfg tool params) cfg.retries.toNat 0
    refine ⟨n, hn, ?_, ?_⟩
    · rw [hreq, List.length_replicate]
    · rw [hsl]
      simp only [Nat.zero_add]
  · intro txt bdy hall
    rw [execute_tool_eq_loop cfg tool params net htool hN,
      execLoop_all_err net cfg.backoff_seconds (mkRequest cfg tool params)
        (fun i => .datagenHttpError ("HTTP 500: " ++ txt i))
        (fun i => by rw [hall i]; exact attemptOnce_500 (txt i) (bdy i))
        (fun i => rfl) cfg.retries.toNat 0]
    show (List.range cfg.retries.toNat).map (fun i => cfg.backoff_seconds * 2 ^ (0 + i)) = _
    simp only [Nat.zero_add]

/-- Witness for C5: retries 2, always-500 backend, schedule `[b, 2b]` with
`b = 1`. -/
theorem claim_exponential_backoff_schedule_witness :
    (execute_tool ⟨"k", "u", 30, 2, 1⟩ "t" none
        (fun _ => .response ⟨500, "e", .null⟩)).sleeps =
      (List.range (2 : Int).toNat).map (fun i => (1 : ℚ) * 2 ^ i) :=
  (claim_exponential_backoff_schedule ⟨"k", "u", 30, 2, 1⟩ "t" none
      (fun _ => .response ⟨500, "e", .null⟩) (by decide) (by decide)).2
    (fun _ => "e") (fun _ => .null) (fun _ => rfl)

/-- Counterexample to claim C3 as stated: on `"http://h:1//"` construction
stores `"http://h:1"`, while stripping exactly one trailing separator
would give `"http://h:1/"`. -/
theorem claim_strip_one_slash_counterexample :
    mkClient (some "k") none "http://h:1//" 30 0 1 =
      .ok ⟨"k", "http://h:1", 30, 0, 1⟩ ∧
    stripOneSlash "http://h:1//" = "http://h:1/" ∧
    ("http://h:1" : String) ≠ "http://h:1/" :=
  ⟨rfl, rfl, by decide⟩

/-- Claim C3 (amended): construction strips ALL trailing path separators
from the endpoint base address.  In particular an input ending in a single
`/` loses exactly that one character and an input with no trailing `/` is
stored unchanged, and in general the input is the stored value followed by
some number of `/` characters. -/
theorem claim_strip_trailing_slashes_amended (key url : String) (t : Nat)
    (r : Int) (b : ℚ) (cfg : ClientConfig) (hkey : key ≠ "")
    (h : mkClient (some key) none url t r b = .ok cfg) :
    (endsSlash url = false → cfg.base_url = url) ∧
    (endsSlash url = true → endsSlash (String.mk url.data.dropLast) = false →
      cfg.base_url = String.mk url.data.dropLast) ∧
    (∃ k, url.data = cfg.base_url.data ++ List.replicate k '/') ∧
    endsSlash cfg.base_url = false := by
  have hbase : cfg.base_url = rstripSlash url := by
    simp only [mkClient, pyOrStr] at h
    rw [if_neg hkey] at h
    dsimp only at h
    rw [if_neg hkey] at h
    injection h with h'
    rw [← h']
  refine ⟨fun h1 => ?_, fun h1 h2 => ?_, ?_, ?_⟩
  · rw [hbase]
    exact rstripSlash_no_slash url h1
  · rw [hbase]
    exact rstripSlash_single url h1 h2
  · obtain ⟨k, hk⟩ := rstripSlash_strips_all url
    exact ⟨k, by rw [hbase]; exact hk⟩
  · rw [hbase]
    exact endsSlash_rstripSlash url

/-- Witness for the amended C3 at `url = "a/"`, stored base `"a"`. -/
theorem claim_strip_trailing_slashes_amended_witness :
    (endsSlash "a/" = false →
      (ClientConfig.mk "k" "a" 30 0 1).base_url = "a/") ∧
    (endsSlash "a/" = true →
      endsSlash (String.mk ("a/".data.dropLast)) = false →
      (ClientConfig.mk "k" "a" 30 0 1).base_url =
        String.mk ("a/".data.dropLast)) ∧
    (∃ k, "a/".data =
      (ClientConfig.mk "k" "a" 30 0 1).base_url.data ++ List.replicate k '/') ∧
    endsSlash (ClientConfig.mk "k" "a" 30 0 1).base_url = false :=
  claim_strip_trailing_slashes_amended "k" "a/" 30 0 1 ⟨"k", "a", 30, 0, 1⟩
    (by decide) rfl

/-- Counterexample to claim C6 as stated: the Invalid-Argument failure of
`execute_tool` is a builtin `ValueError`, which does not derive from the
SDK base class `DatagenError`. -/
theorem claim_error_hierarchy_counterexample :
    (execute_tool ⟨"k", "u", 30, 0, 1⟩ "" none
        (fun _ => .transportError "boom")).outcome =
      .error (.valueError "tool_alias_name is required") ∧
    PyExc.isDatagenError (.valueError "tool_alias_name is required") = false :=
  ⟨rfl, rfl⟩

/-- Claim C6 (amended): every error construction raises derives from the
SDK base class, and every error `execute_tool` raises does so too EXCEPT
the Invalid-Argument `ValueError` for an empty tool identifier, unwrapped
transport failures (`requests.RequestException`), and `AttributeError`
from payloads that are not nested dicts; in particular, over backends that
always deliver envelope-shaped responses, every error raised for a
non-empty tool identifier derives from `DatagenError`. -/
theorem claim_error_hierarchy_amended :
    (∀ (ak env : Option String) (url : String) (t : Nat) (r : Int) (b : ℚ)
        (e : PyExc), mkClient ak env url t r b = .error e →
      e.isDatagenError = true) ∧
    (∀ (cfg : ClientConfig) (tool : String) (params : Option Json)
        (net : Nat → NetResult) (e : PyExc), 0 ≤ cfg.retries →
      (execute_tool cfg tool params net).outcome = .error e →
      ((e.isDatagenError = true ∨
        e = .valueError "tool_alias_name is required" ∨
        (∃ m, e = .requestException m) ∨ (∃ m, e = .attributeError m)) ∧
       (tool ≠ "" →
        (∀ i, ∃ rp, net i = .response rp ∧ envelopeShaped rp.body = true) →
        e.isDatagenError = true))) := by
  constructor
  · intro ak env url t r b e h
    simp only [mkClient] at h
    rcases hp : pyOrStr ak env with _ | k <;> rw [hp] at h <;> dsimp only at h
    · injection h with h'
      rw [← h']
      rfl
    · split_ifs at h with hk
      injection h with h'
      rw [← h']
      rfl
  · intro cfg tool params net e hN h
    by_cases htool : tool = ""
    · subst htool
      have he : e = .valueError "tool_alias_name is required" := by
        simp [execute_tool] at h
        exact h.symm
      exact ⟨Or.inr (Or.inl he), fun ht _ => absurd rfl ht⟩
    · rw [execute_tool_eq_loop cfg tool params net htool hN] at h
      obtain ⟨i, hi⟩ := execLoop_error_from_attempt net cfg.backoff_seconds
        (mkRequest cfg tool params) cfg.retries.toNat 0 e h
      constructor
      · rcases attemptOnce_error_classes (net i) e hi with
          ⟨m, hm⟩ | ⟨m, hm⟩ | ⟨m, hm⟩ | ⟨j, hm⟩ | ⟨m, hm⟩
        · exact Or.inr (Or.inr (Or.inl ⟨m, hm⟩))
        · subst hm
          exact Or.inl rfl
        · subst hm
          exact Or.inl rfl
        · subst hm
          exact Or.inl rfl
        · exact Or.inr (Or.inr (Or.inr ⟨m, hm⟩))
      · intro _ hshape
        obtain ⟨rp, hrp, hsh⟩ := hshape i
        rw [hrp] at hi
        exact attemptOnce_sdk_error_of_shaped rp hsh e hi

/-- Witness for the amended C6: a missing credential at construction and an
outer-envelope failure at call time both yield SDK-derived errors. -/
theorem claim_error_hierarchy_amended_witness :
    PyExc.isDatagenError
      (.datagenAuthError "API key missing. Set DATAGEN_API_KEY or pass api_key.")
      = true ∧
    PyExc.isDatagenError
      (.datagenHttpError ("Unexpected response: " ++ Json.render (.obj [])))
      = true :=
  ⟨claim_error_hierarchy_amended.1 none none "u" 30 0 1
      (.datagenAuthError "API key missing. Set DATAGEN_API_KEY or pass api_key.")
      rfl,
   (claim_error_hierarchy_amended.2 ⟨"k", "u", 30, 0, 1⟩ "t" none
      (fun _ => .response ⟨200, "x", .obj []⟩)
      (.datagenHttpError ("Unexpected response: " ++ Json.render (.obj [])))
      (by decide) rfl).2 (by decide)
      (fun _ => ⟨⟨200, "x", .obj []⟩, rfl, rfl⟩)⟩

end Datagen
